import Mathlib

/-
Verification of the track2stem processor service (src/processor/app.py).

This file is a shallow embedding of the validation, path-sandbox,
progress-tracking, cancellation and cleanup logic of the Flask service,
followed by theorems settling the frozen claims about it.

Modelling conventions:
- Python strings are Lean Strings; character classes of the job-id regex
  are the ASCII classes the pattern spells out.
- Python re.match with a pattern ending in a dollar anchor matches either
  at the end of the string or just before a single trailing newline; the
  embedding reproduces that (JOB_ID_PATTERN_match).
- Filesystem paths are lists of components.  os.path.realpath is embedded
  as lexical resolution of "." and ".." on a symlink-free filesystem
  (resolveComps); os.path.commonpath of two absolute paths is the longest
  common component prefix (commonpath).
- Machine integers are Nat/Int; the only float expressions the claims
  touch are pct * 0.80 in read_output and the allow-list of overlap
  values; both are embedded exactly (see mapProgress and pyFloat).
- The two background writers of a job's status entry (update_progress in
  read_output and the body of estimate_progress) each run atomically
  under progress_lock, so an execution is a sequence of atomic steps on
  the per-job state (ProgState / pstep).
-/

deriving instance DecidableEq for Except

namespace Track2Stem

/-! ## Validator (app.py lines 14-34) -/

/-- ASCII character class of the first regex atom [a-zA-Z0-9]. -/
def isJobIdHead (c : Char) : Bool :=
  (('a' ≤ c && c ≤ 'z') || ('A' ≤ c && c ≤ 'Z') || ('0' ≤ c && c ≤ '9'))

/-- ASCII character class of the repeated regex atom [a-zA-Z0-9-]. -/
def isJobIdTail (c : Char) : Bool :=
  isJobIdHead c || c = '-'

/-- Does a character list match the regex body
[a-zA-Z0-9][a-zA-Z0-9-]{0,254} exactly (one head character followed by at
most 254 tail characters)? -/
def matchesCore (cs : List Char) : Bool :=
  match cs with
  | [] => false
  | c :: rest => isJobIdHead c && rest.all isJobIdTail && rest.length ≤ 254

/-- Embedding of JOB_ID_PATTERN.match (app.py line 15).  Python's dollar
anchor matches at the end of the string or just before a newline at the
end of the string, so the pattern accepts either the whole string or the
whole string minus one trailing newline. -/
def JOB_ID_PATTERN_match (s : String) : Bool :=
  matchesCore s.data ||
    (match s.data.getLast? with
     | some c => c = '\n' && matchesCore s.data.dropLast
     | none => false)

/-- Embedding of validate_job_id (app.py lines 30-34): an empty (falsy)
string or a non-matching string is rejected. -/
def validate_job_id (job_id : String) : Bool :=
  if job_id = "" then false else JOB_ID_PATTERN_match job_id

/-! ## Path sandbox (app.py lines 37-50)

Paths are modelled at component granularity: a raw path is a flag saying
whether it is absolute plus its list of components (components may be
".", ".." or "").  os.path.join(base, *paths) restarts from any absolute
argument; os.path.realpath resolves "." and ".." lexically on the
symlink-free filesystem model, never escaping above the root. -/

structure RawPath where
  absolute : Bool
  comps : List String
deriving DecidableEq

/-- os.path.join of two paths: an absolute second argument discards the
first. -/
def joinTwo (a b : RawPath) : RawPath :=
  if b.absolute then b else ⟨a.absolute, a.comps ++ b.comps⟩

/-- os.path.join(base, *paths). -/
def joinAll (base : RawPath) (paths : List RawPath) : RawPath :=
  paths.foldl joinTwo base

/-- Lexical resolution of ".", ".." and empty components, accumulating
resolved components; ".." at the root stays at the root, as
os.path.realpath does for "/..". -/
def resolveComps (acc : List String) : List String → List String
  | [] => acc
  | c :: rest =>
    if c = "." || c = "" then resolveComps acc rest
    else if c = ".." then resolveComps acc.dropLast rest
    else resolveComps (acc ++ [c]) rest

/-- os.path.realpath on the symlink-free filesystem model: the canonical
component list of an absolute path. -/
def realpath (p : RawPath) : List String :=
  resolveComps [] p.comps

/-- os.path.commonpath of two absolute paths: their longest common
component prefix. -/
def commonpath : List String → List String → List String
  | a :: as, b :: bs => if a = b then a :: commonpath as bs else []
  | _, _ => []

/-- Embedding of safe_join (app.py lines 37-50): join, canonicalize both
the base and the joined path, and require their common path to be the
canonical base; otherwise raise the path-traversal ValueError. -/
def safe_join (base_dir : RawPath) (paths : List RawPath) :
    Except String (List String) :=
  let joined := joinAll base_dir paths
  let real_base := realpath base_dir
  let real_joined := realpath joined
  if commonpath real_base real_joined = real_base then
    Except.ok real_joined
  else
    Except.error "Path traversal detected"

/-! ## Allow-lists (app.py lines 16-27)

ALLOWED_SEGMENTS and ALLOWED_OVERLAPS contain None in the source; the
None member is represented by the Option layer of the parsed value (the
membership checks in process_audio are guarded by "is not None", which
short-circuits exactly that member). -/

def ALLOWED_OUTPUT_FORMATS : List String := ["mp3", "wav", "flac"]

def ALLOWED_STEM_MODES : List String := ["all", "isolate"]

def ALLOWED_STEMS : List String :=
  ["vocals", "drums", "bass", "guitar", "piano", "other"]

def ALLOWED_MODELS : List String :=
  ["htdemucs", "htdemucs_ft", "htdemucs_6s", "hdemucs_mmi",
   "mdx", "mdx_extra", "mdx_q", "mdx_extra_q"]

def SIX_STEM_MODELS : List String := ["htdemucs_6s"]

def ALLOWED_CLIP_MODES : List String := ["rescale", "clamp"]

/-- set(range(0, 11)). -/
def ALLOWED_SHIFTS : List Int := [0, 1, 2, 3, 4, 5, 6, 7, 8, 9, 10]

def ALLOWED_SEGMENTS : List Int := [8, 10, 15, 20, 25, 30, 40, 60]

/-- The float literals of the overlap allow-list, as exact rationals.
Python compares the parsed float against these literals; for decimal
input strings that denote the same real value the comparison agrees with
the exact rational comparison used here. -/
def ALLOWED_OVERLAPS : List ℚ :=
  [0.1, 0.15, 0.2, 0.25, 0.3, 0.35, 0.4, 0.5]

/-! ## Python string and numeric primitives (app.py lines 174-201) -/

/-- ASCII lowercasing of one character, the effect of str.lower() on the
ASCII option strings the service compares against its allow-lists. -/
def lowerChar (c : Char) : Char :=
  if 'A' ≤ c && c ≤ 'Z' then Char.ofNat (c.toNat + 32) else c

/-- Embedding of str.lower() (ASCII). -/
def pyLower (s : String) : String :=
  ⟨s.data.map lowerChar⟩

/-- Value of a list of ASCII digit characters. -/
def digitsToNat (cs : List Char) : Nat :=
  cs.foldl (fun acc c => acc * 10 + (c.toNat - 48)) 0

/-- The ASCII whitespace Python's str.strip() removes. -/
def isPySpace (c : Char) : Bool :=
  c = ' ' || c = '\t' || c = '\n' || c = '\r' || c = '\x0b' || c = '\x0c'

/-- str.strip() on a character list. -/
def trimChars (cs : List Char) : List Char :=
  ((cs.dropWhile isPySpace).reverse.dropWhile isPySpace).reverse

/-- Strip one optional leading sign; returns (negative?, rest). -/
def stripSign (cs : List Char) : Bool × List Char :=
  match cs with
  | '-' :: rest => (true, rest)
  | '+' :: rest => (false, rest)
  | _ => (false, cs)

/-- Embedding of Python int(str) on ASCII input: optional surrounding
whitespace, optional sign, then a nonempty digit string; anything else
raises ValueError (None here). -/
def pyInt (s : String) : Option Int :=
  let t := trimChars s.data
  let p := stripSign t
  if !p.2.isEmpty && p.2.all Char.isDigit then
    some (if p.1 then -(digitsToNat p.2 : Int) else (digitsToNat p.2 : Int))
  else none

/-- Embedding of Python float(str) restricted to plain decimal literals
(optional surrounding whitespace, optional sign, digits with at most one
point, at least one digit); the parsed value is the exact rational the
literal denotes.  Anything else raises ValueError (None here). -/
def pyFloat (s : String) : Option ℚ :=
  let t := trimChars s.data
  let p := stripSign t
  let ip := p.2.takeWhile (fun c => c ≠ '.')
  match p.2.dropWhile (fun c => c ≠ '.') with
  | [] =>
    if !ip.isEmpty && ip.all Char.isDigit then
      let v : ℚ := (digitsToNat ip : ℚ)
      some (if p.1 then -v else v)
    else none
  | _ :: fp =>
    if !(fp.contains '.') && !(ip.isEmpty && fp.isEmpty)
        && ip.all Char.isDigit && fp.all Char.isDigit then
      let v : ℚ := (digitsToNat ip : ℚ)
        + (digitsToNat fp : ℚ) / ((10 : ℚ) ^ fp.length)
      some (if p.1 then -v else v)
    else none

/-! ## Request form parsing and validation (app.py lines 174-238) -/

/-- The multipart form fields of a /process request that the option
pipeline reads; a field is none when the request omits it. -/
structure Form where
  job_id : Option String
  output_format : Option String
  stem_mode : Option String
  isolate_stem : Option String
  model : Option String
  clip_mode : Option String
  shifts : Option String
  segment : Option String
  overlap : Option String

/-- A request with every option omitted. -/
def emptyForm : Form :=
  ⟨none, none, none, none, none, none, none, none, none⟩

/-- The option values process_audio works with after lines 174-201. -/
structure Options where
  job_id : String
  output_format : String
  stem_mode : String
  isolate_stem : String
  model : String
  clip_mode : String
  shifts : Int
  segment : Option Int
  overlap : Option ℚ
deriving DecidableEq

/-- Embedding of app.py lines 174-201: defaults for omitted fields,
lowercasing of the enumerated fields, and the lenient numeric parsing
(int(...) failure for shifts falls back to 0; a falsy segment/overlap
string or a parse failure yields None). -/
def parseForm (f : Form) : Options :=
  let job_id := f.job_id.getD "unknown"
  let output_format := pyLower (f.output_format.getD "mp3")
  let stem_mode := pyLower (f.stem_mode.getD "all")
  let isolate_stem := pyLower (f.isolate_stem.getD "vocals")
  let model := pyLower (f.model.getD "htdemucs_6s")
  let clip_mode := pyLower (f.clip_mode.getD "rescale")
  let shifts := (pyInt (f.shifts.getD "0")).getD 0
  let segment_raw := f.segment.getD ""
  let segment := if segment_raw = "" then none else pyInt segment_raw
  let overlap_raw := f.overlap.getD ""
  let overlap := if overlap_raw = "" then none else pyFloat overlap_raw
  ⟨job_id, output_format, stem_mode, isolate_stem, model, clip_mode,
   shifts, segment, overlap⟩

/-- The distinct 400-rejections of the validation block, in source
order. -/
inductive ValErr where
  | invalidJobId
  | invalidOutputFormat
  | invalidStemMode
  | invalidIsolateStem
  | invalidModel
  | invalidClipMode
  | invalidShifts
  | invalidSegment
  | invalidOverlap
deriving DecidableEq

/-- Embedding of the validation block of process_audio (app.py lines
203-238): each check in source order, each failure returning its own 400
error; passing all checks lets the request proceed. -/
def validateOptions (o : Options) : Except ValErr Options :=
  if !(validate_job_id o.job_id) then Except.error ValErr.invalidJobId
  else if !(ALLOWED_OUTPUT_FORMATS.contains o.output_format) then
    Except.error ValErr.invalidOutputFormat
  else if !(ALLOWED_STEM_MODES.contains o.stem_mode) then
    Except.error ValErr.invalidStemMode
  else if !(ALLOWED_STEMS.contains o.isolate_stem) then
    Except.error ValErr.invalidIsolateStem
  else if !(ALLOWED_MODELS.contains o.model) then
    Except.error ValErr.invalidModel
  else if !(ALLOWED_CLIP_MODES.contains o.clip_mode) then
    Except.error ValErr.invalidClipMode
  else if !(ALLOWED_SHIFTS.contains o.shifts) then
    Except.error ValErr.invalidShifts
  else if (match o.segment with
           | some s => !(ALLOWED_SEGMENTS.contains s)
           | none => false) then
    Except.error ValErr.invalidSegment
  else if (match o.overlap with
           | some v => !(ALLOWED_OVERLAPS.contains v)
           | none => false) then
    Except.error ValErr.invalidOverlap
  else Except.ok o

/-! ## Progress tracking (app.py lines 325-503)

The per-job progress state consists of the closure variable
last_progress and the job's snapshot in processing_status.  Both writers
(update_progress, called from the read_output thread, and the body of
estimate_progress) run their read-modify-write under progress_lock, so a
run is a sequence of atomic steps. -/

/-- A processing_status entry, restricted to the fields the claims are
about. -/
structure Snapshot where
  status : String
  progress : Nat
deriving DecidableEq

/-- The shared per-job progress state: the last_progress closure
variable (line 353) and the processing_status snapshot. -/
structure ProgState where
  last_progress : Nat
  snap : Snapshot
deriving DecidableEq

/-- Mapping of a raw tool percentage to the overall job percentage:
10 + int(pct * 0.80) (app.py lines 434 and 450).  For every integer pct,
the computed double pct * fl(0.80) lies in [0.8 * pct, 0.8 * pct + 1)
because fl(0.80) exceeds 0.80 by about 4.4e-17 and rounding a product
that exceeds an exact multiple of 0.8 never drops below it, so the float
truncation int(pct * 0.80) equals the exact floor (4 * pct) / 5. -/
def mapProgress (pct : Nat) : Nat :=
  10 + (pct * 4) / 5

/-- Embedding of update_progress (app.py lines 362-375): under
progress_lock, write the snapshot (with status processing) and advance
last_progress only when the new value strictly exceeds last_progress. -/
def update_progress (new_progress : Nat) (s : ProgState) : ProgState :=
  if s.last_progress < new_progress then
    { last_progress := new_progress,
      snap := { status := "processing", progress := new_progress } }
  else s

/-- The time-based percentage 10 + min(75, int((elapsed / 300) * 75)) of
estimate_progress (app.py line 476), for whole-second elapsed times at
which the float expression is exact. -/
def timeProgress (elapsed : Nat) : Nat :=
  10 + min 75 ((elapsed * 75) / 300)

/-- Embedding of one loop iteration of estimate_progress (app.py lines
472-491): under progress_lock, write the snapshot when the time-based
value exceeds last_progress, the stored status is processing and
last_progress is below 85 -- note the source leaves last_progress itself
unchanged on this path. -/
def estimateStep (elapsed : Nat) (s : ProgState) : ProgState :=
  if s.last_progress < timeProgress elapsed
      && s.snap.status == "processing"
      && s.last_progress < 85 then
    { s with snap := { status := "processing",
                       progress := timeProgress elapsed } }
  else s

/-- One atomic event on a job's progress state: a parser update derived
from a raw percentage (lines 429-437 and 443-453 both funnel through
mapProgress), the fixed loading update (line 442), or one estimator
iteration. -/
inductive PEvent where
  | parserPct (pct : Nat)
  | parserLoading
  | estimator (elapsed : Nat)

/-- Apply one event to the progress state. -/
def pstep (s : ProgState) (e : PEvent) : ProgState :=
  match e with
  | PEvent.parserPct pct =>
    update_progress (mapProgress pct) s
  | PEvent.parserLoading => update_progress 12 s
  | PEvent.estimator elapsed => estimateStep elapsed s

/-- Run a sequence of interleaved parser/estimator events. -/
def prun (s : ProgState) (es : List PEvent) : ProgState :=
  es.foldl pstep s

/-! ## Terminal-path cleanup (app.py lines 510-546, 669-694, 704-714 and
cancel_job lines 114-157)

Each terminal path of a job executes a fixed straight-line sequence of
cleanup statements; the record below reads off, per path, which of the
cleanup actions that path attempts. -/

/-- The terminal paths of a job. -/
inductive JobOutcome where
  | success
  | toolFailure (returnCode : Nat)
  | timeout
  | cancelled
  | exception
deriving DecidableEq

/-- Which cleanup actions a terminal path attempts, and the final status
it writes. -/
structure CleanupRecord where
  removedDemucsOutputDir : Bool
  removedModelRootIfEmpty : Bool
  removedInputFile : Bool
  removedRegistryEntry : Bool
  removedJobOutputDir : Bool
  finalStatus : String
deriving DecidableEq

/-- Cleanup actions per terminal path, read off the source:
success (lines 669-694): rmtree(demucs_output), rmdir of the empty model
root, remove(input_path), registry delete, status completed;
non-zero exit (lines 535-546): registry delete and status failed only;
timeout (lines 510-522 then 704-708): registry delete and status failed
only;
cancellation (lines 114-157): registry delete, rmtree of the job output
directory, status cancelled;
unexpected exception (lines 709-714): status failed only. -/
def terminalCleanup : JobOutcome → CleanupRecord
  | JobOutcome.success =>
    ⟨true, true, true, true, false, "completed"⟩
  | JobOutcome.toolFailure _ =>
    ⟨false, false, false, true, false, "failed"⟩
  | JobOutcome.timeout =>
    ⟨false, false, false, true, false, "failed"⟩
  | JobOutcome.cancelled =>
    ⟨false, false, false, true, true, "cancelled"⟩
  | JobOutcome.exception =>
    ⟨false, false, false, false, false, "failed"⟩

/-- The four cleanup steps the Lifecycle Cleaner is supposed to attempt
on every terminal path. -/
def attemptsFullCleanup (c : CleanupRecord) : Bool :=
  c.removedDemucsOutputDir && c.removedModelRootIfEmpty
    && c.removedInputFile && c.removedRegistryEntry

/-! ## Cancellation (app.py lines 107-160) -/

/-- The process-wide state cancel_job touches: the keys of
active_processes and the processing_status map (an association list;
assignment shadows the old entry, mirroring dict overwrite).  The
OS-level effects on the process handle and the pseudo-terminal
descriptor are outside this state. -/
structure SrvState where
  active : List String
  statuses : List (String × Snapshot)
deriving DecidableEq

/-- dict assignment processing_status[k] = v. -/
def setStatus (m : List (String × Snapshot)) (k : String) (v : Snapshot) :
    List (String × Snapshot) :=
  (k, v) :: m.filter (fun p => p.1 != k)

/-- The three responses of the /cancel endpoint. -/
inductive CancelResult where
  | invalidId
  | cancelledOk
  | notFound
deriving DecidableEq

/-- Embedding of cancel_job (app.py lines 107-160): reject an invalid
job id; with an active_processes entry, delete it, write the cancelled
snapshot with progress 0 and (filesystem effect) remove the job output
directory; without one, answer not_found (404) and change nothing. -/
def cancel_job (job_id : String) (st : SrvState) :
    CancelResult × SrvState :=
  if !(validate_job_id job_id) then (CancelResult.invalidId, st)
  else if st.active.contains job_id then
    (CancelResult.cancelledOk,
      { active := st.active.filter (fun k => k != job_id),
        statuses := setStatus st.statuses job_id
          { status := "cancelled", progress := 0 } })
  else (CancelResult.notFound, st)

/-! ## Concrete request forms used by the claims -/

/-- The isolate guitar with a four-stem model request of the test
test_process_incompatible_isolate_stem_for_4stem_model. -/
def formC2 : Form :=
  { emptyForm with
      job_id := some "valid-job-compat"
      stem_mode := some "isolate"
      isolate_stem := some "guitar"
      model := some "htdemucs" }

/-- The non-numeric shifts request of test_process_non_numeric_shifts. -/
def formC5a : Form :=
  { emptyForm with
      job_id := some "valid-job-nn1"
      shifts := some "abc" }

/-- The non-numeric segment request of
test_process_non_numeric_segment. -/
def formC5b : Form :=
  { emptyForm with
      job_id := some "valid-job-nn2"
      segment := some "xyz" }

/-- The non-numeric overlap request of
test_process_non_numeric_overlap. -/
def formC5c : Form :=
  { emptyForm with
      job_id := some "valid-job-nn3"
      overlap := some "not-a-number" }

/-! ## Helper lemmas -/

theorem commonpath_append (a t : List String) :
    commonpath a (a ++ t) = a := by
  induction a with
  | nil => cases t <;> rfl
  | cons x xs ih => simp [commonpath, ih]

theorem commonpath_append_left (a t : List String) :
    commonpath (a ++ t) a = a := by
  induction a with
  | nil => cases t <;> rfl
  | cons x xs ih => simp [commonpath, ih]

theorem commonpath_self (a : List String) : commonpath a a = a := by
  have h := commonpath_append a []
  rwa [List.append_nil] at h

theorem append_eq_self_nil {α : Type} {a t : List α} (h : a = a ++ t) :
    t = [] := by
  have hl := congrArg List.length h
  simp only [List.length_append] at hl
  exact List.eq_nil_of_length_eq_zero (by omega)

/-! ## Claims -/

/-- C1: the claim states that a job's reported progress percentage never
decreases while its status is processing, across any interleaving of
update_progress and estimate_progress steps.  The code violates it: from
last_progress 10 and snapshot (processing, 10), one estimator iteration
at elapsed 150 s writes the snapshot (processing, 47) without touching
last_progress, after which a parser update for a raw 20 percent maps to
26, exceeds last_progress 10, and overwrites the snapshot with
(processing, 26): the reported percentage regresses from 47 to 26. -/
theorem progress_regression_across_interleaving :
    (prun ⟨10, ⟨"processing", 10⟩⟩ [PEvent.estimator 150]).snap
        = ⟨"processing", 47⟩ ∧
    (prun ⟨10, ⟨"processing", 10⟩⟩
        [PEvent.estimator 150, PEvent.parserPct 20]).snap
        = ⟨"processing", 26⟩ ∧ (26 : Nat) < 47 := by
  decide

/-- C2: the claim states that stem_mode isolate with an isolate_stem
outside the selected model's stem set (guitar with the 4-stem model
htdemucs) is rejected with a distinct incompatible-option error.  The
validation block has no such cross-field check: the request passes
every check and the job proceeds. -/
theorem isolate_incompatible_combination_accepted :
    (parseForm formC2).stem_mode = "isolate" ∧
    (parseForm formC2).isolate_stem = "guitar" ∧
    (parseForm formC2).model = "htdemucs" ∧
    SIX_STEM_MODELS.contains "htdemucs" = false ∧
    validateOptions (parseForm formC2) = Except.ok (parseForm formC2) := by
  decide

/-- C3 counterexample: the claim states that every terminal path
attempts all four cleanup steps; on the non-zero-exit path the input
file (and the intermediate directory and model root) are not removed,
and on the unexpected-exception path even the registry entry stays. -/
theorem cleanup_not_attempted_on_tool_failure :
    attemptsFullCleanup (terminalCleanup (JobOutcome.toolFailure 1)) = false ∧
    (terminalCleanup (JobOutcome.toolFailure 1)).removedInputFile = false ∧
    (terminalCleanup JobOutcome.exception).removedRegistryEntry = false := by
  decide

/-- C3 as amended: the four cleanup steps are all attempted exactly on
the success path; the registry entry is removed on every terminal path
except the unexpected-exception path; the job output directory is
removed exactly on cancellation. -/
theorem cleanup_per_terminal_path (o : JobOutcome) :
    (attemptsFullCleanup (terminalCleanup o) = true ↔ o = JobOutcome.success) ∧
    ((terminalCleanup o).removedRegistryEntry = true
        ↔ o ≠ JobOutcome.exception) ∧
    ((terminalCleanup o).removedJobOutputDir = true
        ↔ o = JobOutcome.cancelled) := by
  cases o <;> simp [terminalCleanup, attemptsFullCleanup]

/-- C4: cancelling a job with an active_processes entry removes that
entry and stores the cancelled snapshot with progress 0; cancelling a
job without an entry answers not_found and returns the state
unchanged. -/
theorem cancel_spec (jid : String) (st : SrvState)
    (hv : validate_job_id jid = true) :
    (st.active.contains jid = true →
      (cancel_job jid st).1 = CancelResult.cancelledOk ∧
      (cancel_job jid st).2.active.contains jid = false ∧
      List.lookup jid (cancel_job jid st).2.statuses =
        some ⟨"cancelled", 0⟩) ∧
    (st.active.contains jid = false →
      cancel_job jid st = (CancelResult.notFound, st)) := by
  constructor
  · intro hmem
    have hm : jid ∈ st.active := List.mem_of_elem_eq_true hmem
    refine ⟨?_, ?_, ?_⟩ <;>
      simp [cancel_job, hv, hm, setStatus, List.lookup, List.mem_filter]
  · intro hmem
    have hnm : jid ∉ st.active := by
      intro hm
      have h2 : st.active.contains jid = true := List.elem_eq_true_of_mem hm
      rw [h2] at hmem
      cases hmem
    simp [cancel_job, hv, hnm]

/-- C4 witness: a concrete cancellation of a live job. -/
theorem cancel_spec_witness :
    validate_job_id "job-1" = true ∧
    (SrvState.mk ["job-1"] []).active.contains "job-1" = true ∧
    (cancel_job "job-1" ⟨["job-1"], []⟩).1 = CancelResult.cancelledOk ∧
    (cancel_job "job-1" ⟨["job-1"], []⟩).2.active.contains "job-1" = false ∧
    List.lookup "job-1" (cancel_job "job-1" ⟨["job-1"], []⟩).2.statuses =
      some ⟨"cancelled", 0⟩ := by
  refine ⟨by decide, by decide, ?_⟩
  exact (cancel_spec "job-1" ⟨["job-1"], []⟩ (by decide)).1 (by decide)

/-- C5: the claim states that a numeric option failing the strict
numeric grammar is rejected like an out-of-allow-list value and never
silently replaced by a default.  The code does the opposite: a shifts
parse failure falls back to the default 0, and a segment or overlap
parse failure falls back to None, after which validation passes. -/
theorem numeric_parse_failure_silently_defaulted :
    pyInt "abc" = none ∧ (parseForm formC5a).shifts = 0 ∧
    validateOptions (parseForm formC5a) = Except.ok (parseForm formC5a) ∧
    pyInt "xyz" = none ∧ (parseForm formC5b).segment = none ∧
    validateOptions (parseForm formC5b) = Except.ok (parseForm formC5b) ∧
    pyFloat "not-a-number" = none ∧ (parseForm formC5c).overlap = none ∧
    validateOptions (parseForm formC5c) = Except.ok (parseForm formC5c) := by
  decide

/-- C6: joins whose canonical result is a strict ancestor of the
canonical base raise the path-traversal error, and in-bounds joins
(canonical result below or equal to the canonical base) return the
canonical form of the naive join. -/
theorem safe_join_escape_and_inbounds (base : RawPath)
    (paths : List RawPath) (_hb : base.absolute = true) :
    (∀ t : List String, t ≠ [] →
        realpath base = realpath (joinAll base paths) ++ t →
        safe_join base paths = Except.error "Path traversal detected") ∧
    (∀ t : List String,
        realpath (joinAll base paths) = realpath base ++ t →
        safe_join base paths = Except.ok (realpath (joinAll base paths))) := by
  constructor
  · intro t ht heq
    have h1 : commonpath (realpath base) (realpath (joinAll base paths))
        = realpath (joinAll base paths) := by
      rw [heq]; exact commonpath_append_left _ _
    have hne : ¬ commonpath (realpath base) (realpath (joinAll base paths))
        = realpath base := by
      rw [h1]
      intro h2
      exact ht (append_eq_self_nil (h2 ▸ heq))
    simp only [safe_join, if_neg hne]
  · intro t heq
    have h1 : commonpath (realpath base) (realpath (joinAll base paths))
        = realpath base := by
      rw [heq]; exact commonpath_append _ _
    simp only [safe_join, if_pos h1]

/-- C6 witness: under the base /app/uploads, the traversal ../.. (which
canonicalizes to the root, an ancestor) raises, and the plain segment
job1 joins in bounds to /app/uploads/job1. -/
theorem safe_join_escape_and_inbounds_witness :
    (RawPath.mk true ["app", "uploads"]).absolute = true ∧
    safe_join ⟨true, ["app", "uploads"]⟩ [⟨false, ["..", ".."]⟩]
      = Except.error "Path traversal detected" ∧
    safe_join ⟨true, ["app", "uploads"]⟩ [⟨false, ["job1"]⟩]
      = Except.ok ["app", "uploads", "job1"] := by
  refine ⟨rfl, ?_, ?_⟩
  · exact (safe_join_escape_and_inbounds ⟨true, ["app", "uploads"]⟩
      [⟨false, ["..", ".."]⟩] rfl).1 ["app", "uploads"] (by decide) (by decide)
  · exact (safe_join_escape_and_inbounds ⟨true, ["app", "uploads"]⟩
      [⟨false, ["job1"]⟩] rfl).2 ["job1"] (by decide)

/-- C7: the claim states that any string containing whitespace or
control characters (a trailing newline in particular) is rejected by
validate_job_id.  It is not: Python's dollar anchor also matches just
before a trailing newline, so a job id with a trailing newline is
accepted. -/
theorem validate_job_id_trailing_newline :
    validate_job_id "abc\n" = true ∧ isPySpace '\n' = true := by
  decide

/-- C8: a raw tool percentage p between 0 and 100 is mapped to the
overall job percentage floor(10 + p * 0.80), which always lies between
10 and 90. -/
theorem mapProgress_floor_and_range (p : Nat) (hp : p ≤ 100) :
    ((mapProgress p : ℤ) = ⌊(10 : ℚ) + (p : ℚ) * (80 / 100)⌋) ∧
    10 ≤ mapProgress p ∧ mapProgress p ≤ 90 := by
  refine ⟨?_, ?_, ?_⟩
  · have h1 : (10 : ℚ) + (p : ℚ) * (80 / 100)
        = ((p * 4 : ℕ) : ℚ) / ((5 : ℕ) : ℚ) + ((10 : ℤ) : ℚ) := by
      push_cast; ring
    rw [h1, Int.floor_add_int, Rat.floor_natCast_div_natCast]
    unfold mapProgress
    push_cast
    ring
  · unfold mapProgress; omega
  · unfold mapProgress; omega

/-- C8 witness: the mapping at the concrete raw percentage 50. -/
theorem mapProgress_floor_and_range_witness :
    (50 : Nat) ≤ 100 ∧
    (((mapProgress 50 : ℤ) = ⌊(10 : ℚ) + ((50 : Nat) : ℚ) * (80 / 100)⌋) ∧
      10 ≤ mapProgress 50 ∧ mapProgress 50 ≤ 90) :=
  ⟨by decide, mapProgress_floor_and_range 50 (by decide)⟩

/-- C9: an omitted option is replaced by its fixed default (output
format mp3, stem mode all, isolate stem vocals, model htdemucs_6s, clip
mode rescale, shifts 0, segment and overlap unset), and the fully
defaulted request passes validation. -/
theorem defaults_substituted_and_valid :
    (∀ f : Form, f.output_format = none →
      (parseForm f).output_format = "mp3") ∧
    (∀ f : Form, f.stem_mode = none → (parseForm f).stem_mode = "all") ∧
    (∀ f : Form, f.isolate_stem = none →
      (parseForm f).isolate_stem = "vocals") ∧
    (∀ f : Form, f.model = none → (parseForm f).model = "htdemucs_6s") ∧
    (∀ f : Form, f.clip_mode = none →
      (parseForm f).clip_mode = "rescale") ∧
    (∀ f : Form, f.shifts = none → (parseForm f).shifts = 0) ∧
    (∀ f : Form, f.segment = none → (parseForm f).segment = none) ∧
    (∀ f : Form, f.overlap = none → (parseForm f).overlap = none) ∧
    validateOptions (parseForm emptyForm) = Except.ok (parseForm emptyForm) := by
  refine ⟨?_, ?_, ?_, ?_, ?_, ?_, ?_, ?_, by decide⟩ <;>
    (intro f h; obtain ⟨f1, f2, f3, f4, f5, f6, f7, f8, f9⟩ := f;
     simp only at h; subst h; rfl)

/-- C9 witness: the fully omitted request gets the defaults and passes
validation. -/
theorem defaults_substituted_and_valid_witness :
    emptyForm.output_format = none ∧
    (parseForm emptyForm).output_format = "mp3" ∧
    (parseForm emptyForm).shifts = 0 ∧
    validateOptions (parseForm emptyForm) = Except.ok (parseForm emptyForm) :=
  ⟨rfl, defaults_substituted_and_valid.1 emptyForm rfl,
    (defaults_substituted_and_valid.2.2.2.2.2.1) emptyForm rfl,
    defaults_substituted_and_valid.2.2.2.2.2.2.2.2⟩

/-- C10: a join whose canonical result equals the canonical base is in
bounds: safe_join returns the canonical base instead of raising. -/
theorem safe_join_root_inbounds (base : RawPath) (paths : List RawPath)
    (_hb : base.absolute = true)
    (h : realpath (joinAll base paths) = realpath base) :
    safe_join base paths = Except.ok (realpath base) := by
  simp only [safe_join, h, commonpath_self, if_pos]

/-- C10 witness: joining the segments a/.. under /app/uploads resolves
to the base itself and is accepted. -/
theorem safe_join_root_inbounds_witness :
    (RawPath.mk true ["app", "uploads"]).absolute = true ∧
    realpath (joinAll ⟨true, ["app", "uploads"]⟩ [⟨false, ["a", ".."]⟩])
      = realpath ⟨true, ["app", "uploads"]⟩ ∧
    safe_join ⟨true, ["app", "uploads"]⟩ [⟨false, ["a", ".."]⟩]
      = Except.ok (realpath ⟨true, ["app", "uploads"]⟩) :=
  ⟨rfl, by decide,
    safe_join_root_inbounds ⟨true, ["app", "uploads"]⟩
      [⟨false, ["a", ".."]⟩] rfl (by decide)⟩

end Track2Stem
